import Mathlib

/-!
Verification development for `slack-server.py`, a websocket chat relay backed
by a document store.  The server state (MongoDB collections, the set of live
websocket connections and the per-connection `client_info` map) is embedded
shallowly: collections are Lean lists kept in insertion order (MongoDB natural
order for this workload), `ObjectId`s and the server-assigned `created_at`
timestamps are drawn from one strictly increasing counter `ctr`, and each
handler is a pure function from server state and a parsed request to the new
state plus the list of `(recipient, envelope)` websocket sends it performs.
-/

/-- Model of Python `str.strip()` (no argument): drop leading and trailing
whitespace. -/
def stripWs (s : String) : String :=
  String.mk (((s.toList.dropWhile Char.isWhitespace).reverse.dropWhile
    Char.isWhitespace).reverse)

/-- Model of Python `str.strip("#")`: drop leading and trailing `#`. -/
def stripHash (s : String) : String :=
  String.mk (((s.toList.dropWhile (· == '#')).reverse.dropWhile
    (· == '#')).reverse)

/-- Lexicographic comparison on code points, the model of MongoDB's ordering
on string keys used by `.sort("name", 1)`. -/
def lexLe : List Char → List Char → Bool
  | [], _ => true
  | _ :: _, [] => false
  | a :: as, b :: bs =>
    if a.toNat < b.toNat then true
    else if b.toNat < a.toNat then false
    else lexLe as bs

def strLe (a b : String) : Bool := lexLe a.toList b.toList

/-- Insert into a list sorted by the boolean relation `le` (insertion sort
step); models a store sort. -/
def insK {α : Type} (le : α → α → Bool) (a : α) : List α → List α
  | [] => [a]
  | b :: l => if le a b then a :: b :: l else b :: insK le a l

/-- Insertion sort by the boolean relation `le`; the model of the store's
`.sort(key, dir)` operation. -/
def sortK {α : Type} (le : α → α → Bool) : List α → List α
  | [] => []
  | a :: l => insK le a (sortK le l)

/-- A document in the `workspaces` collection. -/
structure Workspace where
  id : Nat
  name : String
  deriving DecidableEq, Repr

/-- A document in the `channels` collection. -/
structure Channel where
  id : Nat
  name : String
  workspace_id : Nat
  descr : String
  deriving DecidableEq, Repr

/-- A document in the `messages` collection.  `created_at` is the
server-assigned storage timestamp (a strictly increasing counter models the
`datetime.now()` values of successive inserts). -/
structure Message where
  id : Nat
  workspace_id : Nat
  channel_id : Nat
  user_id : Nat
  sender : String
  content : String
  mdate : String
  mtime : String
  created_at : Nat
  deriving DecidableEq, Repr

/-- A document in the `users` collection. -/
structure User where
  id : Nat
  username : String
  deriving DecidableEq, Repr

/-- The document store: the four collections in insertion (natural) order plus
the counter that supplies fresh `ObjectId`s and `created_at` timestamps. -/
structure Store where
  workspaces : List Workspace
  channels : List Channel
  messages : List Message
  users : List User
  ctr : Nat
  deriving DecidableEq, Repr

/-- Per-connection entry of `client_info`:
`{"user_id": ..., "workspace": ...}`. -/
structure SessInfo where
  user_id : Option Nat
  workspace : Option String
  deriving DecidableEq, Repr

/-- Whole server state: the store, the `clients` set (kept as a list) and the
`client_info` dict (kept as an association list keyed by session id). -/
structure SrvState where
  store : Store
  clients : List Nat
  client_info : List (Nat × SessInfo)
  deriving DecidableEq, Repr

/-- A parsed inbound JSON envelope; `data.get(k)` is field access,
`data.get(k, d)` is `(·.k).getD d`.  `raw` is the original frame text (used
by `broadcast`, which echoes the inbound frame verbatim). -/
structure Req where
  raw : String := ""
  action : Option String := none
  sender : Option String := none
  username : Option String := none
  workspace : Option String := none
  channel : Option String := none
  message : Option String := none
  date : Option String := none
  time : Option String := none
  workspace_name : Option String := none
  channel_name : Option String := none
  descr : Option String := none
  query : Option String := none
  date_from : Option String := none
  date_to : Option String := none
  deriving DecidableEq, Repr

/-- View of a message as serialized by `send_channel_data`. -/
structure MsgView where
  vdate : String
  vtime : String
  vsender : String
  vmsg : String
  deriving DecidableEq, Repr

/-- View of a message as serialized by `search_messages`. -/
structure SearchView where
  sdate : String
  stime : String
  ssender : String
  smsg : String
  sworkspace : String
  schannel : String
  deriving DecidableEq, Repr

/-- An outbound envelope, abstracted to the constructor for its `action` and
the payload fields the verification tracks; `raw` is the verbatim echo of an
inbound frame performed by `broadcast`. -/
inductive OutMsg where
  | raw (text : String)
  | registerUserResp (status : String)
  | createWorkspaceResp (status : String)
  | createChannelResp (status : String)
  | deleteChannelResp (status : String)
  | channelList (workspace : String) (channels : List String)
  | channelListErr
  | channelData (workspace channel : String) (msgs : List MsgView)
  | channelDataErr
  | workspaceUpdate (listing : List (String × List String))
  | channelUpdate (workspace : String) (channels : List String)
  | searchResp (status : String) (cnt : Nat) (results : List SearchView)
  | searchErr
  deriving DecidableEq, Repr

/-- `workspaces_collection.find_one({"name": name})`. -/
def findWorkspace (s : Store) (name : String) : Option Workspace :=
  s.workspaces.find? (fun w => w.name == name)

/-- `workspaces_collection.find_one({})` (fallback in `store_message`). -/
def firstWorkspace (s : Store) : Option Workspace :=
  s.workspaces.head?

/-- `channels_collection.find_one({"name": name, "workspace_id": wid})`. -/
def findChannel (s : Store) (name : String) (wid : Nat) : Option Channel :=
  s.channels.find? (fun c => c.name == name && c.workspace_id == wid)

/-- `channels_collection.find_one({"workspace_id": wid})` (fallback in
`store_message`). -/
def firstChannelIn (s : Store) (wid : Nat) : Option Channel :=
  s.channels.find? (fun c => c.workspace_id == wid)

/-- `users_collection.find_one({"username": u})`. -/
def findUser (s : Store) (u : String) : Option User :=
  s.users.find? (fun x => x.username == u)

/-- `channels_collection.find({"workspace_id": wid})`. -/
def channelsOf (s : Store) (wid : Nat) : List Channel :=
  s.channels.filter (fun c => c.workspace_id == wid)

/-- The user upsert used by `handle_message`, `register_user` and
`store_message`: `find_one({"username": u})`, inserting on absence; returns
the updated store and the bound `_id`. -/
def getOrCreateUser (s : Store) (u : String) : Store × Nat :=
  match findUser s u with
  | some x => (s, x.id)
  | none =>
    ({ s with
        users := s.users ++ [{ id := s.ctr, username := u }]
        ctr := s.ctr + 1 }, s.ctr)

/-- Wall-clock date string `datetime.now().strftime('%Y-%m-%d')`, an external
input to the system; modeled as a fixed constant (no claim depends on it). -/
def nowDate : String := ""

/-- Wall-clock time string `datetime.now().strftime("%H:%M:%S")`; modeled as
a fixed constant. -/
def nowTime : String := ""

/-- `store_message(data)`: resolve the workspace by name falling back to the
first workspace, resolve the channel by stripped name falling back to the
first channel of the workspace, upsert the sender as a user, then insert the
message.  Every exception (in particular the `None["_id"]` dereference when
both lookups fail) is caught and logged, leaving the store as it was at that
point, so failure never escapes to the caller. -/
def storeMessage (s : Store) (req : Req) : Store :=
  let wname := (req.workspace).getD "default"
  let cname := stripHash ((req.channel).getD "default")
  let sender := (req.sender).getD "Unknown"
  match (findWorkspace s wname).orElse (fun _ => firstWorkspace s) with
  | none => s
  | some w =>
    let ch? := (findChannel s cname w.id).orElse (fun _ => firstChannelIn s w.id)
    let su := getOrCreateUser s sender
    match ch? with
    | none => su.1
    | some ch =>
      { su.1 with
        messages := su.1.messages ++
          [{ id := su.1.ctr, workspace_id := w.id, channel_id := ch.id,
             user_id := su.2, sender := sender,
             content := (req.message).getD "",
             mdate := (req.date).getD nowDate,
             mtime := (req.time).getD nowTime,
             created_at := su.1.ctr }]
        ctr := su.1.ctr + 1 }

/-- Update the `user_id` of the `client_info` entry for session `sid`
(`client_info[websocket]["user_id"] = user_id`). -/
def setUid : List (Nat × SessInfo) → Nat → Nat → List (Nat × SessInfo)
  | [], _, _ => []
  | (k, i) :: rest, sid, uid =>
    if k == sid then (k, { i with user_id := some uid }) :: rest
    else (k, i) :: setUid rest sid uid

/-- Update the `workspace` of the `client_info` entry for session `sid`
(`client_info[websocket]["workspace"] = workspace_name`). -/
def setWs : List (Nat × SessInfo) → Nat → String → List (Nat × SessInfo)
  | [], _, _ => []
  | (k, i) :: rest, sid, wn =>
    if k == sid then (k, { i with workspace := some wn }) :: rest
    else (k, i) :: setWs rest sid wn

/-- Session ids present in `client_info`. -/
def infoKeys (l : List (Nat × SessInfo)) : List Nat := l.map Prod.fst

/-- Dict lookup `client_info[sid]`. -/
def lookupInfo (l : List (Nat × SessInfo)) (sid : Nat) : Option SessInfo :=
  (l.find? (fun p => p.1 == sid)).map Prod.snd

/-- `channels_collection.delete_one({"_id": i})`: remove the first channel
document with the given id. -/
def removeFirstChannel : List Channel → Nat → List Channel
  | [], _ => []
  | c :: rest, i => if c.id == i then rest else c :: removeFirstChannel rest i

/-- The workspace-to-channel-names listing built by
`broadcast_workspace_update` (and `send_workspace_list`): all workspaces
sorted by name, each with its channel names sorted by name. -/
def wsListing (s : Store) : List (String × List String) :=
  (sortK (fun a b => strLe a.name b.name) s.workspaces).map
    (fun w => (w.name,
      (sortK (fun a b => strLe a.name b.name) (channelsOf s w.id)).map
        (fun c => c.name)))

/-- The sends performed by `broadcast_workspace_update()`: the listing
notification to every member of `clients`. -/
def wsUpdateOuts (s : Store) (clients : List Nat) : List (Nat × OutMsg) :=
  clients.map (fun c => (c, OutMsg.workspaceUpdate (wsListing s)))

/-- The channel-name list for a workspace as built by
`broadcast_channel_update` and `send_channel_list`: names of the workspace's
channels sorted by name, `[]` when the workspace is absent. -/
def chanNamesFor (s : Store) (wname : String) : List String :=
  match findWorkspace s wname with
  | some w =>
    (sortK (fun a b => strLe a.name b.name) (channelsOf s w.id)).map
      (fun c => c.name)
  | none => []

/-- The sends performed by `broadcast_channel_update(wname)`: the
`channel_update` notification to exactly the `client_info` entries whose
current `workspace` equals `wname`. -/
def chUpdateOuts (s : Store) (wname : String)
    (infos : List (Nat × SessInfo)) : List (Nat × OutMsg) :=
  (infos.filter (fun p => p.2.workspace == some wname)).map
    (fun p => (p.1, OutMsg.channelUpdate wname (chanNamesFor s wname)))

/-- The sends performed by `broadcast(message, sender)`: the verbatim inbound
frame to every client other than the sender. -/
def broadcastOuts (clients : List Nat) (sender : Nat) (raw : String) :
    List (Nat × OutMsg) :=
  (clients.filter (fun c => !(c == sender))).map
    (fun c => (c, OutMsg.raw raw))

/-- `register_user(data, websocket)`.  A missing or empty `username` returns
silently (no envelope is sent).  Otherwise the user is upserted and bound to
the session; the `KeyError` raised by the binding when the session is not in
`client_info` is caught by the handler's `except`, which sends an
error-status response (the user insert has already happened). -/
def registerUser (st : SrvState) (sid : Nat) (req : Req) :
    SrvState × List (Nat × OutMsg) :=
  match req.username with
  | none => (st, [])
  | some u =>
    if u == "" then (st, [])
    else
      let su := getOrCreateUser st.store u
      if sid ∈ infoKeys st.client_info then
        ({ st with store := su.1, client_info := setUid st.client_info sid su.2 },
         [(sid, OutMsg.registerUserResp "success")])
      else
        ({ st with store := su.1 }, [(sid, OutMsg.registerUserResp "error")])

/-- `create_workspace(data, websocket)`.  Note that the response (success or
duplicate-name error) is followed unconditionally by
`broadcast_workspace_update()`; only the empty-name validation path skips the
broadcast. -/
def createWorkspace (st : SrvState) (sid : Nat) (req : Req) :
    SrvState × List (Nat × OutMsg) :=
  let wname := stripWs ((req.workspace_name).getD "")
  if wname == "" then (st, [(sid, OutMsg.createWorkspaceResp "error")])
  else
    match findWorkspace st.store wname with
    | some _ =>
      (st, (sid, OutMsg.createWorkspaceResp "error") ::
        wsUpdateOuts st.store st.clients)
    | none =>
      let s1 : Store :=
        { st.store with
          workspaces := st.store.workspaces ++ [{ id := st.store.ctr, name := wname }]
          ctr := st.store.ctr + 1 }
      let s2 : Store :=
        { s1 with
          channels := s1.channels ++
            [{ id := s1.ctr, name := "전체", workspace_id := st.store.ctr,
               descr := "모든 구성원을 위한 채널" },
             { id := s1.ctr + 1, name := "소셜", workspace_id := st.store.ctr,
               descr := "일반적인 대화를 위한 채널" }]
          ctr := s1.ctr + 2 }
      ({ st with store := s2 },
       (sid, OutMsg.createWorkspaceResp "success") ::
         wsUpdateOuts s2 st.clients)

/-- `create_channel(data, websocket)`.  The missing-workspace path returns
early without a broadcast; the duplicate-channel error and the success path
are both followed by `broadcast_channel_update(workspace_name)`. -/
def createChannel (st : SrvState) (sid : Nat) (req : Req) :
    SrvState × List (Nat × OutMsg) :=
  let wname := stripWs ((req.workspace).getD "")
  let cname := stripWs ((req.channel_name).getD "")
  if cname == "" then (st, [(sid, OutMsg.createChannelResp "error")])
  else
    match findWorkspace st.store wname with
    | none => (st, [(sid, OutMsg.createChannelResp "error")])
    | some w =>
      match findChannel st.store cname w.id with
      | some _ =>
        (st, (sid, OutMsg.createChannelResp "error") ::
          chUpdateOuts st.store wname st.client_info)
      | none =>
        let s1 : Store :=
          { st.store with
            channels := st.store.channels ++
              [{ id := st.store.ctr, name := cname, workspace_id := w.id,
                 descr := (req.descr).getD "" }]
            ctr := st.store.ctr + 1 }
        ({ st with store := s1 },
         (sid, OutMsg.createChannelResp "success") ::
           chUpdateOuts s1 wname st.client_info)

/-- `delete_channel(data, websocket)`: delete the channel's messages with
`delete_many({"channel_id": ...})`, then the channel itself with
`delete_one({"_id": ...})`, then broadcast the scoped channel update. -/
def deleteChannel (st : SrvState) (sid : Nat) (req : Req) :
    SrvState × List (Nat × OutMsg) :=
  let wname := stripWs ((req.workspace).getD "")
  let cname := stripHash (stripWs ((req.channel).getD ""))
  if cname == "" || wname == "" then
    (st, [(sid, OutMsg.deleteChannelResp "error")])
  else
    match findWorkspace st.store wname with
    | none => (st, [(sid, OutMsg.deleteChannelResp "error")])
    | some w =>
      match findChannel st.store cname w.id with
      | none => (st, [(sid, OutMsg.deleteChannelResp "error")])
      | some ch =>
        let s1 : Store :=
          { st.store with
            messages := st.store.messages.filter
              (fun m => !(m.channel_id == ch.id))
            channels := removeFirstChannel st.store.channels ch.id }
        ({ st with store := s1 },
         (sid, OutMsg.deleteChannelResp "success") ::
           chUpdateOuts s1 wname st.client_info)

/-- `send_channel_list(data, websocket)`: send the channel names of the
requested workspace (empty when it does not exist), then record the
workspace as the session's subscription.  When the session is missing from
`client_info` the subscription write raises after the send; the `except`
clause then sends the error-shaped list. -/
def sendChannelList (st : SrvState) (sid : Nat) (req : Req) :
    SrvState × List (Nat × OutMsg) :=
  let wname := (req.workspace).getD "default"
  let out := OutMsg.channelList wname (chanNamesFor st.store wname)
  if sid ∈ infoKeys st.client_info then
    ({ st with client_info := setWs st.client_info sid wname }, [(sid, out)])
  else
    (st, [(sid, out), (sid, OutMsg.channelListErr)])

/-- `send_channel_data(data, websocket)`: messages of the resolved channel
sorted by `created_at` ascending, serialized to date/time/sender/content. -/
def sendChannelData (st : SrvState) (sid : Nat) (req : Req) :
    SrvState × List (Nat × OutMsg) :=
  let wname := (req.workspace).getD "default"
  let cname := stripHash ((req.channel).getD "default")
  match findWorkspace st.store wname with
  | none => (st, [(sid, OutMsg.channelDataErr)])
  | some w =>
    match findChannel st.store cname w.id with
    | none => (st, [(sid, OutMsg.channelDataErr)])
    | some ch =>
      let ms := sortK (fun a b => decide (a.created_at ≤ b.created_at))
        (st.store.messages.filter
          (fun m => m.workspace_id == w.id && m.channel_id == ch.id))
      (st, [(sid, OutMsg.channelData wname cname
        (ms.map (fun m => { vdate := m.mdate, vtime := m.mtime,
                            vsender := m.sender, vmsg := m.content })))])

/-- ASCII lowering `Char.toLower`, the model of the `"$options": "i"`
case-insensitive comparison. -/
def lowChar (c : Char) : Char := c.toLower

/-- Lower a char list for case-insensitive matching. -/
def lowList (l : List Char) : List Char := l.map lowChar

/-- A regular-expression token: `base = none` is the metacharacter `.`,
`base = some c` is the literal `c`; `star` marks a `*` suffix. -/
structure RTok where
  base : Option Char
  star : Bool
  deriving DecidableEq, Repr

/-- Tokenize a pattern string for the regex engine.  This models the pattern
dialect MongoDB applies to the `$regex` operand on the fragment consisting of
literal characters and the metacharacters `.` and `*`; any other PCRE
metacharacter would be treated literally here, so the model is faithful only
on patterns containing none of them, and every theorem below applies it
solely to such patterns: the counterexample's pattern uses `.` alone, and
`claim_C6` hypothesises `metaFree`, excluding the entire PCRE metacharacter
set. -/
def lexPat : List Char → List RTok
  | [] => []
  | c :: '*' :: rest =>
    { base := if c == '.' then none else some c, star := true } :: lexPat rest
  | c :: rest =>
    { base := if c == '.' then none else some c, star := false } :: lexPat rest

/-- Does a token accept the (already lowered) input character? -/
def charOK (b : Option Char) (x : Char) : Bool :=
  match b with
  | none => true
  | some c => lowChar c == x

/-- All suffixes of the input reachable by letting a starred token consume
zero or more matching characters. -/
def starChomp (b : Option Char) : List Char → List (List Char)
  | [] => [[]]
  | x :: s => (x :: s) :: (if charOK b x then starChomp b s else [])

/-- Match the token list against a prefix of the input: a starred token tries
every number of repetitions, any other token consumes exactly one matching
character. -/
def rMatch : List RTok → List Char → Bool
  | [], _ => true
  | t :: p, s =>
    if t.star then (starChomp t.base s).any (fun s2 => rMatch p s2)
    else
      match s with
      | [] => false
      | x :: s2 => charOK t.base x && rMatch p s2

/-- Unanchored regex search: try the match at every start position. -/
def rSearch (p : List RTok) : List Char → Bool
  | [] => rMatch p []
  | s@(_ :: s2) => rMatch p s || rSearch p s2

/-- Model of the store filter
`{"content": {"$regex": pat, "$options": "i"}}`: case-insensitive unanchored
regex search of `pat` in `s`.  Faithful to MongoDB exactly on patterns whose
characters other than `.` and `*` are all non-metacharacters (see `lexPat`);
no theorem evaluates it outside that fragment. -/
def regexFind (pat s : String) : Bool :=
  rSearch (lexPat pat.toList) (lowList s.toList)

/-- Boolean prefix test on char lists. -/
def isPref : List Char → List Char → Bool
  | [], _ => true
  | _ :: _, [] => false
  | a :: p, b :: s => a == b && isPref p s

/-- Boolean substring test on char lists. -/
def hasSub (p : List Char) : List Char → Bool
  | [] => isPref p []
  | s@(_ :: s2) => isPref p s || hasSub p s2

/-- Case-insensitive substring containment, the reading of "matches Q as a
case-insensitive substring" in the specification. -/
def icontains (needle hay : String) : Bool :=
  hasSub (lowList needle.toList) (lowList hay.toList)

/-- Workspace name resolved from an id by `search_messages` when building a
result row (`"Unknown"` when the id does not resolve). -/
def wsNameById (s : Store) (i : Nat) : String :=
  match s.workspaces.find? (fun w => w.id == i) with
  | some w => w.name
  | none => "Unknown"

/-- Channel name resolved from an id by `search_messages`. -/
def chNameById (s : Store) (i : Nat) : String :=
  match s.channels.find? (fun c => c.id == i) with
  | some c => c.name
  | none => "Unknown"

/-- The optional `workspace_id` constraint of the search filter: present only
when the request names a non-empty workspace that exists. -/
def searchWsId (s : Store) (req : Req) : Option Nat :=
  match req.workspace with
  | some wn => if wn == "" then none else (findWorkspace s wn).map (fun w => w.id)
  | none => none

/-- The optional `channel_id` constraint of the search filter: present only
when both workspace and channel are named non-empty and both resolve. -/
def searchChId (s : Store) (req : Req) : Option Nat :=
  match req.channel, req.workspace with
  | some cn, some wn =>
    if cn == "" || wn == "" then none
    else
      match findWorkspace s wn with
      | some w => (findChannel s cn w.id).map (fun c => c.id)
      | none => none
  | _, _ => none

/-- The optional sender pattern of the search filter (present when the
request carries a non-empty `sender`). -/
def searchSender (req : Req) : Option String :=
  match req.sender with
  | some sp => if sp == "" then none else some sp
  | none => none

/-- The optional inclusive date-range bounds of the search filter (string
comparison, as MongoDB compares the stored date strings). -/
def searchDates (req : Req) : Option String × Option String :=
  ((match req.date_from with
    | some d => if d == "" then none else some d
    | none => none),
   (match req.date_to with
    | some d => if d == "" then none else some d
    | none => none))

/-- The complete search filter as the code builds it: `$regex` on content,
then the optional workspace/channel/sender/date constraints. -/
def searchMatch (s : Store) (req : Req) (q : String) (m : Message) : Bool :=
  regexFind q m.content &&
    (match searchWsId s req with
     | some i => m.workspace_id == i
     | none => true) &&
    (match searchChId s req with
     | some i => m.channel_id == i
     | none => true) &&
    (match searchSender req with
     | some sp => regexFind sp m.sender
     | none => true) &&
    (match (searchDates req).1 with
     | some d => strLe d m.mdate
     | none => true) &&
    (match (searchDates req).2 with
     | some d => strLe m.mdate d
     | none => true)

/-- `search_messages(data, websocket)`: an empty (stripped) query is a
validation error; otherwise run the filter, sort by `created_at` descending,
limit to 100 and serialize with resolved workspace/channel names. -/
def searchMessages (st : SrvState) (sid : Nat) (req : Req) :
    SrvState × List (Nat × OutMsg) :=
  let q := stripWs ((req.query).getD "")
  if q == "" then (st, [(sid, OutMsg.searchErr)])
  else
    let ms := (sortK (fun a b => decide (b.created_at ≤ a.created_at))
      (st.store.messages.filter (searchMatch st.store req q))).take 100
    let rs := ms.map (fun m =>
      { sdate := m.mdate, stime := m.mtime, ssender := m.sender,
        smsg := m.content, sworkspace := wsNameById st.store m.workspace_id,
        schannel := chNameById st.store m.channel_id : SearchView })
    (st, [(sid, OutMsg.searchResp "success" rs.length rs)])

/-- The user-upsert preamble of `handle_message`: when the envelope carries a
`sender` other than the defaults `"Unknown"`/`"Server"`, upsert that user and
bind it to the session.  The returned flag is false when the binding raised
`KeyError` (session not in `client_info`), which aborts the whole handler via
the outer `except` (no envelope is sent). -/
def preamble (st : SrvState) (sid : Nat) (req : Req) : SrvState × Bool :=
  let uname := (req.sender).getD "Unknown"
  if uname == "Unknown" || uname == "Server" then (st, true)
  else
    let su := getOrCreateUser st.store uname
    if sid ∈ infoKeys st.client_info then
      ({ st with store := su.1, client_info := setUid st.client_info sid su.2 },
       true)
    else
      ({ st with store := su.1 }, false)

/-- `handle_message(message, websocket)`: the preamble followed by the
action dispatch.  `send_message` stores then broadcasts the raw frame to all
other clients unconditionally.  Actions not involved in any claim
(`get_workspace_list`, `delete_workspace`, `update_workspace`,
`update_channel`) and unknown actions are modeled as the logged no-op. -/
def handleMessage (st : SrvState) (sid : Nat) (req : Req) :
    SrvState × List (Nat × OutMsg) :=
  match preamble st sid req with
  | (st1, false) => (st1, [])
  | (st1, true) =>
    match req.action with
    | some "send_message" =>
      ({ st1 with store := storeMessage st1.store req },
       broadcastOuts st1.clients sid req.raw)
    | some "register_user" => registerUser st1 sid req
    | some "get_channel_list" => sendChannelList st1 sid req
    | some "get_channel_data" => sendChannelData st1 sid req
    | some "create_workspace" => createWorkspace st1 sid req
    | some "create_channel" => createChannel st1 sid req
    | some "delete_channel" => deleteChannel st1 sid req
    | some "search" => searchMessages st1 sid req
    | _ => (st1, [])

/-- The metacharacters of the PCRE dialect MongoDB's `$regex` interprets.
A pattern containing none of them is matched purely literally, so `$regex`
with the `i` option degenerates to case-insensitive substring search. -/
def regexMeta : List Char :=
  ['.', '^', '$', '*', '+', '?', '(', ')', '[', ']', '{', '}', '|', '\\']

/-- The property that a pattern string contains no regular-expression
metacharacter at all. -/
abbrev metaFree (q : String) : Prop := ∀ c ∈ q.toList, c ∉ regexMeta

/-- Token list of an all-literal pattern. -/
def litToks (p : List Char) : List RTok :=
  p.map (fun c => { base := some c, star := false })

/-- The search filter as the specification words it: content "matches Q as a
case-insensitive substring", the same optional workspace/channel constraints,
a case-insensitive substring sender filter, and the inclusive date range.
This is the spec-side reading compared against `searchMatch` (which uses the
code's `$regex`). -/
def specSearchMatch (s : Store) (req : Req) (q : String) (m : Message) : Bool :=
  icontains q m.content &&
    (match searchWsId s req with
     | some i => m.workspace_id == i
     | none => true) &&
    (match searchChId s req with
     | some i => m.channel_id == i
     | none => true) &&
    (match searchSender req with
     | some sp => icontains sp m.sender
     | none => true) &&
    (match (searchDates req).1 with
     | some d => strLe d m.mdate
     | none => true) &&
    (match (searchDates req).2 with
     | some d => strLe m.mdate d
     | none => true)

/-- A small store used to instantiate theorems: one workspace `"w"` with one
channel `"c"`. -/
def demoStore : Store :=
  { workspaces := [{ id := 0, name := "w" }]
    channels := [{ id := 1, name := "c", workspace_id := 0, descr := "" }]
    messages := []
    users := []
    ctr := 2 }

/-- Three live sessions: one subscribed to `"w"`, one to `"v"`, one
unsubscribed. -/
def demoInfo : List (Nat × SessInfo) :=
  [(0, { user_id := none, workspace := some "w" }),
   (1, { user_id := none, workspace := some "v" }),
   (2, { user_id := none, workspace := none })]

/-- A demo server state over `demoStore` with the three demo sessions. -/
def demoState : SrvState :=
  { store := demoStore, clients := [0, 1, 2], client_info := demoInfo }

/-- A store holding a single workspace whose stored name carries a leading
space (as an externally seeded document could). -/
def padStore : Store :=
  { workspaces := [{ id := 0, name := " a" }]
    messages := [], channels := [], users := [], ctr := 1 }

/-- Server state over `padStore` with one live session. -/
def padState : SrvState :=
  { store := padStore, clients := [0]
    client_info := [(0, { user_id := none, workspace := none })] }

/-- A completely empty store (no workspace exists, so every
`store_message` persistence attempt fails). -/
def emptyStore : Store :=
  { workspaces := [], channels := [], messages := [], users := [], ctr := 0 }

/-- Server state over `emptyStore` with two live sessions. -/
def emptyState : SrvState :=
  { store := emptyStore, clients := [0, 1]
    client_info := [(0, { user_id := none, workspace := none }),
                    (1, { user_id := none, workspace := none })] }

/-- `demoStore` extended with one stored message whose content is `"hi"`. -/
def hiStore : Store :=
  { demoStore with
    messages := [{ id := 2, workspace_id := 0, channel_id := 1, user_id := 0,
                   sender := "u", content := "hi", mdate := "", mtime := "",
                   created_at := 2 }]
    ctr := 3 }

/-- `demoStore` extended with two stored messages `"hi there"` and `"bye"`
(the worked example of the specification). -/
def hiByeStore : Store :=
  { demoStore with
    messages := [{ id := 2, workspace_id := 0, channel_id := 1, user_id := 0,
                   sender := "u", content := "hi there", mdate := "",
                   mtime := "", created_at := 2 },
                 { id := 3, workspace_id := 0, channel_id := 1, user_id := 0,
                   sender := "u", content := "bye", mdate := "", mtime := "",
                   created_at := 3 }]
    ctr := 4 }

/-- The intermediate states of the create-then-delete counterexample run:
`create_channel` of `"#x"` in `"w"` followed by `delete_channel` of the same
request fields. -/
def hashState1 : SrvState :=
  (createChannel { store := demoStore, clients := [0]
                   client_info := [(0, { user_id := none, workspace := none })] }
    0 { workspace := some "w", channel_name := some "#x" }).1

/-- State after the `delete_channel` that follows `hashState1`. -/
def hashState2 : SrvState :=
  (deleteChannel hashState1 0 { workspace := some "w", channel := some "#x" }).1

/-- Request used to exercise the round-trip: store `"hello"` into
`"w"`/`"c"` as `"alice"`. -/
def rq3w : Req :=
  { workspace := some "w", channel := some "c", message := some "hello"
    sender := some "alice", date := some "d", time := some "t" }

/-- Server state over `hiByeStore` with one live session, for search
runs. -/
def hiState : SrvState :=
  { store := hiByeStore, clients := [0], client_info := [] }

/-- The search request of the specification example: query `"hi"`. -/
def rqHi : Req := { query := some "hi" }

theorem mem_insK {α : Type} (le : α → α → Bool) (a x : α) (l : List α) :
    x ∈ insK le a l ↔ x = a ∨ x ∈ l := by
  induction l with
  | nil => simp [insK]
  | cons b t ih =>
    simp only [insK]
    split
    · simp
    · simp only [List.mem_cons, ih]
      tauto

theorem mem_sortK {α : Type} (le : α → α → Bool) (x : α) (l : List α) :
    x ∈ sortK le l ↔ x ∈ l := by
  induction l with
  | nil => simp [sortK]
  | cons a t ih => simp [sortK, mem_insK, ih]

theorem pairwise_insK {α : Type} (le : α → α → Bool)
    (htot : ∀ x y, le x y = true ∨ le y x = true)
    (htr : ∀ x y z, le x y = true → le y z = true → le x z = true)
    (a : α) (l : List α) (h : l.Pairwise (fun x y => le x y = true)) :
    (insK le a l).Pairwise (fun x y => le x y = true) := by
  induction l with
  | nil => simp [insK]
  | cons b t ih =>
    simp only [insK]
    rcases List.pairwise_cons.mp h with ⟨hb, ht⟩
    split
    · rename_i hab
      refine List.pairwise_cons.mpr ⟨?_, h⟩
      intro x hx
      rcases List.mem_cons.mp hx with rfl | hxt
      · exact hab
      · exact htr _ _ _ hab (hb x hxt)
    · rename_i hnab
      have hba : le b a = true := by
        rcases htot a b with h1 | h1
        · exact absurd h1 hnab
        · exact h1
      refine List.pairwise_cons.mpr ⟨?_, ih ht⟩
      intro x hx
      rcases (mem_insK le a x t).mp hx with rfl | hxt
      · exact hba
      · exact hb x hxt

theorem pairwise_sortK {α : Type} (le : α → α → Bool)
    (htot : ∀ x y, le x y = true ∨ le y x = true)
    (htr : ∀ x y z, le x y = true → le y z = true → le x z = true)
    (l : List α) : (sortK le l).Pairwise (fun x y => le x y = true) := by
  induction l with
  | nil => simp [sortK]
  | cons a t ih => exact pairwise_insK le htot htr a _ ih

theorem getOrCreateUser_workspaces (s : Store) (u : String) :
    (getOrCreateUser s u).1.workspaces = s.workspaces := by
  unfold getOrCreateUser
  cases findUser s u <;> rfl

theorem getOrCreateUser_channels (s : Store) (u : String) :
    (getOrCreateUser s u).1.channels = s.channels := by
  unfold getOrCreateUser
  cases findUser s u <;> rfl

theorem getOrCreateUser_messages (s : Store) (u : String) :
    (getOrCreateUser s u).1.messages = s.messages := by
  unfold getOrCreateUser
  cases findUser s u <;> rfl

theorem preamble_clients (st : SrvState) (sid : Nat) (req : Req) :
    (preamble st sid req).1.clients = st.clients := by
  simp only [preamble]
  split <;> (try split) <;> rfl

theorem preamble_store_workspaces (st : SrvState) (sid : Nat) (req : Req) :
    (preamble st sid req).1.store.workspaces = st.store.workspaces := by
  simp only [preamble]
  split <;> (try split) <;> simp [getOrCreateUser_workspaces]

theorem preamble_store_channels (st : SrvState) (sid : Nat) (req : Req) :
    (preamble st sid req).1.store.channels = st.store.channels := by
  simp only [preamble]
  split <;> (try split) <;> simp [getOrCreateUser_channels]

theorem preamble_store_messages (st : SrvState) (sid : Nat) (req : Req) :
    (preamble st sid req).1.store.messages = st.store.messages := by
  simp only [preamble]
  split <;> (try split) <;> simp [getOrCreateUser_messages]

theorem preamble_ok (st : SrvState) (sid : Nat) (req : Req)
    (h : sid ∈ infoKeys st.client_info) : (preamble st sid req).2 = true := by
  simp only [preamble, h]
  split <;> rfl

theorem mem_broadcastOuts (clients : List Nat) (sender c : Nat) (raw : String)
    (m : OutMsg) : (c, m) ∈ broadcastOuts clients sender raw ↔
      (c ∈ clients ∧ c ≠ sender ∧ m = OutMsg.raw raw) := by
  simp only [broadcastOuts, List.mem_map, List.mem_filter, Prod.mk.injEq,
    Bool.not_eq_eq_eq_not, Bool.not_true, beq_eq_false_iff_ne, ne_eq]
  constructor
  · rintro ⟨x, ⟨hx, hne⟩, rfl, rfl⟩
    exact ⟨hx, hne, rfl⟩
  · rintro ⟨hc, hne, rfl⟩
    exact ⟨c, ⟨hc, hne⟩, rfl, rfl⟩

theorem handleMessage_send (st : SrvState) (sid : Nat) (req : Req)
    (hact : req.action = some "send_message")
    (hsid : sid ∈ infoKeys st.client_info) :
    (handleMessage st sid req).2 = broadcastOuts st.clients sid req.raw := by
  unfold handleMessage
  have hok := preamble_ok st sid req hsid
  have hcl := preamble_clients st sid req
  cases hp : preamble st sid req with
  | mk st1 ok =>
    rw [hp] at hok hcl
    simp only at hok hcl
    subst hok
    rw [hact]
    simp [hcl]

theorem storeMessage_noWorkspace (s : Store) (req : Req)
    (h : s.workspaces = []) : storeMessage s req = s := by
  simp [storeMessage, findWorkspace, firstWorkspace, h, Option.orElse]

theorem handleMessage_send_store (st : SrvState) (sid : Nat) (req : Req)
    (hact : req.action = some "send_message")
    (hsid : sid ∈ infoKeys st.client_info) :
    (handleMessage st sid req).1.store =
      storeMessage (preamble st sid req).1.store req := by
  unfold handleMessage
  have hok := preamble_ok st sid req hsid
  cases hp : preamble st sid req with
  | mk st1 ok =>
    rw [hp] at hok
    simp only at hok
    subst hok
    rw [hact]
    simp

/-- C1: an inbound `send_message` envelope from session `S` is broadcast
verbatim to exactly the live sessions other than `S`: every other client
receives the original frame (its subscription state plays no role, since
`broadcast` iterates the raw `clients` set) and the sender never receives it
back. -/
theorem claim_C1 (st : SrvState) (sid : Nat) (req : Req)
    (hact : req.action = some "send_message")
    (hsid : sid ∈ infoKeys st.client_info) (c : Nat) :
    (c, OutMsg.raw req.raw) ∈ (handleMessage st sid req).2 ↔
      (c ∈ st.clients ∧ c ≠ sid) := by
  rw [handleMessage_send st sid req hact hsid, mem_broadcastOuts]
  simp

/-- Witness for `claim_C1`: in the demo state, session 1 receives the frame
sent by session 0 and session 0 does not receive its own frame. -/
theorem claim_C1_wit :
    (((1, OutMsg.raw "M") ∈
        (handleMessage demoState 0 { raw := "M", action := some "send_message" }).2 ↔
      (1 ∈ demoState.clients ∧ 1 ≠ 0)) ∧
     ((0, OutMsg.raw "M") ∈
        (handleMessage demoState 0 { raw := "M", action := some "send_message" }).2 ↔
      (0 ∈ demoState.clients ∧ 0 ≠ 0))) :=
  ⟨claim_C1 demoState 0 { raw := "M", action := some "send_message" } rfl (by decide) 1,
   claim_C1 demoState 0 { raw := "M", action := some "send_message" } rfl (by decide) 0⟩

/-- C8 counterexample: `register_user` with the `username` field absent, or
present but empty, returns from the handler before any `websocket.send`, so
no envelope at all (in particular no error-status response) reaches the
caller — refuting the claim that a `ValidationError` is reported back. -/
theorem claim_C8_cex :
    (registerUser demoState 0 { username := none }).2 = [] ∧
      (registerUser demoState 0 { username := some "" }).2 = [] :=
  ⟨rfl, rfl⟩

/-- C8 amended: a `register_user` request whose required `username` is
missing or empty is silently dropped — the handler sends no response
envelope and leaves the whole server state unchanged. -/
theorem claim_C8 (st : SrvState) (sid : Nat) (req : Req)
    (h : req.username = none ∨ req.username = some "") :
    registerUser st sid req = (st, []) := by
  unfold registerUser
  rcases h with h | h
  · rw [h]
  · rw [h]
    simp

/-- Witness for `claim_C8` at a concrete state and request. -/
theorem claim_C8_wit :
    registerUser demoState 1 { username := some "" } = (demoState, []) :=
  claim_C8 demoState 1 { username := some "" } (Or.inr rfl)

/-- C9 counterexample: with an empty store every persistence attempt of
`store_message` fails (the workspace lookup and its fallback both return
nothing, and the exception is swallowed inside `store_message`), yet the
chat broadcast to the other live session is still issued — refuting the
claim that the broadcast happens only if the write was accepted. -/
theorem claim_C9_cex :
    (handleMessage emptyState 0
        { raw := "R", action := some "send_message", workspace := some "w",
          channel := some "c", message := some "hello" }).1.store.messages = [] ∧
      (1, OutMsg.raw "R") ∈ (handleMessage emptyState 0
        { raw := "R", action := some "send_message", workspace := some "w",
          channel := some "c", message := some "hello" }).2 := by
  constructor
  · rfl
  · decide

/-- C9 amended: `handle_message` runs `store_message` to completion (which
catches and logs any persistence failure) and then issues the chat broadcast
unconditionally; in particular when no workspace exists, so that the
persistence write necessarily fails and the message collection is unchanged,
every other live session still receives the frame. -/
theorem claim_C9 (st : SrvState) (sid : Nat) (req : Req)
    (hact : req.action = some "send_message")
    (hsid : sid ∈ infoKeys st.client_info)
    (hws : st.store.workspaces = []) :
    (handleMessage st sid req).1.store.messages = st.store.messages ∧
      ∀ c, c ∈ st.clients → c ≠ sid →
        (c, OutMsg.raw req.raw) ∈ (handleMessage st sid req).2 := by
  constructor
  · rw [handleMessage_send_store st sid req hact hsid]
    have hw2 : (preamble st sid req).1.store.workspaces = [] := by
      rw [preamble_store_workspaces]; exact hws
    rw [storeMessage_noWorkspace _ _ hw2, preamble_store_messages]
  · intro c hc hne
    rw [handleMessage_send st sid req hact hsid, mem_broadcastOuts]
    exact ⟨hc, hne, rfl⟩

/-- Witness for `claim_C9` on the empty-store state. -/
theorem claim_C9_wit :
    ((handleMessage emptyState 0
        { raw := "B", action := some "send_message",
          message := some "m" }).1.store.messages = emptyState.store.messages ∧
      ∀ c, c ∈ emptyState.clients → c ≠ 0 →
        (c, OutMsg.raw "B") ∈ (handleMessage emptyState 0
          { raw := "B", action := some "send_message", message := some "m" }).2) :=
  claim_C9 emptyState 0
    { raw := "B", action := some "send_message", message := some "m" }
    rfl (by decide) rfl

theorem lookupInfo_setWs (l : List (Nat × SessInfo)) (sid : Nat) (wn : String) :
    lookupInfo (setWs l sid wn) sid =
      (lookupInfo l sid).map (fun i => { i with workspace := some wn }) := by
  induction l with
  | nil => rfl
  | cons p t ih =>
    obtain ⟨k, i⟩ := p
    by_cases h : (k == sid) = true
    · simp [setWs, lookupInfo, List.find?, h]
    · have hb : (k == sid) = false := by simpa using h
      simpa [setWs, lookupInfo, List.find?, hb] using ih

theorem sendChannelList_info (st : SrvState) (sid : Nat) (req : Req)
    (hsid : sid ∈ infoKeys st.client_info) :
    (sendChannelList st sid req).1.client_info =
      setWs st.client_info sid ((req.workspace).getD "default") := by
  simp [sendChannelList, hsid]

/-- C2: the `channel_update` notification for workspace `W` is delivered to
exactly the sessions whose current subscription equals `W` (first two
conjuncts: every delivery goes to a subscriber of `W` and carries the
channel list for `W`, and every subscriber of `W` gets a delivery), and the
subscription is precisely what the session's most recent `get_channel_list`
request recorded (third conjunct: `send_channel_list` overwrites the
session's subscription with the requested workspace). -/
theorem claim_C2 (s : Store) (W : String) (infos : List (Nat × SessInfo)) :
    (∀ c m, (c, m) ∈ chUpdateOuts s W infos →
       m = OutMsg.channelUpdate W (chanNamesFor s W) ∧
         ∃ i, (c, i) ∈ infos ∧ i.workspace = some W) ∧
    (∀ c i, (c, i) ∈ infos → i.workspace = some W →
       (c, OutMsg.channelUpdate W (chanNamesFor s W)) ∈ chUpdateOuts s W infos) ∧
    (∀ st sid req, sid ∈ infoKeys st.client_info →
       lookupInfo (sendChannelList st sid req).1.client_info sid =
         (lookupInfo st.client_info sid).map
           (fun i => { i with workspace := some ((req.workspace).getD "default") })) := by
  refine ⟨?_, ?_, ?_⟩
  · intro c m hm
    simp only [chUpdateOuts, List.mem_map, List.mem_filter] at hm
    obtain ⟨⟨c2, i⟩, ⟨hmem, hws⟩, heq⟩ := hm
    simp only [Prod.mk.injEq] at heq
    obtain ⟨rfl, rfl⟩ := heq
    simp only [beq_iff_eq] at hws
    exact ⟨rfl, i, hmem, hws⟩
  · intro c i hmem hws
    simp only [chUpdateOuts, List.mem_map, List.mem_filter]
    exact ⟨(c, i), ⟨hmem, by simp [hws]⟩, rfl⟩
  · intro st sid req hsid
    rw [sendChannelList_info st sid req hsid, lookupInfo_setWs]

/-- Witness for `claim_C2`: in the demo sessions, the subscriber of `"w"`
receives the `channel_update` for `"w"`. -/
theorem claim_C2_wit :
    (0, OutMsg.channelUpdate "w" (chanNamesFor demoStore "w")) ∈
      chUpdateOuts demoStore "w" demoInfo :=
  (claim_C2 demoStore "w" demoInfo).2.1 0
    { user_id := none, workspace := some "w" } (by decide) rfl

theorem find?_append_none {α : Type} (p : α → Bool) (l1 l2 : List α)
    (h : l1.find? p = none) : (l1 ++ l2).find? p = l2.find? p := by
  induction l1 with
  | nil => simp
  | cons a t ih =>
    rcases hq : p a with hv | hv
    · simp only [List.cons_append, List.find?_cons, hq]
      apply ih
      simpa [List.find?_cons, hq] using h
    · simp [List.find?_cons, hq] at h

theorem getOrCreateUser_idem (s : Store) (u : String) :
    getOrCreateUser (getOrCreateUser s u).1 u = getOrCreateUser s u := by
  unfold getOrCreateUser
  cases hf : findUser s u with
  | some x => simp [findUser] at hf ⊢; simp [hf]
  | none =>
    have h2 : findUser { s with
        users := s.users ++ [{ id := s.ctr, username := u }]
        ctr := s.ctr + 1 } u = some { id := s.ctr, username := u } := by
      unfold findUser at hf ⊢
      simp only
      rw [find?_append_none _ _ _ hf]
      simp [List.find?_cons]
    simp [h2]

theorem getOrCreateUser_uCount (s : Store) (u : String)
    (hc : (s.users.filter (fun x => x.username == u)).length ≤ 1) :
    (((getOrCreateUser s u).1).users.filter
      (fun x => x.username == u)).length = 1 := by
  unfold getOrCreateUser
  cases hf : findUser s u with
  | some x =>
    have hf2 : List.find? (fun y : User => y.username == u) s.users = some x := hf
    have hmem : x ∈ s.users := List.mem_of_find?_eq_some hf2
    have hp := List.find?_some hf2
    have hx : x ∈ s.users.filter (fun y => y.username == u) :=
      List.mem_filter.mpr ⟨hmem, hp⟩
    have hpos : 0 < (s.users.filter (fun y => y.username == u)).length :=
      List.length_pos.mpr (List.ne_nil_of_mem hx)
    simpa using Nat.le_antisymm hc hpos
  | none =>
    have hnil : s.users.filter (fun y => y.username == u) = [] := by
      rw [List.filter_eq_nil_iff]
      intro y hy
      have := List.find?_eq_none.mp hf y hy
      simpa using this
    simp [List.filter_append, hnil]

theorem infoKeys_setUid (l : List (Nat × SessInfo)) (sid uid : Nat) :
    infoKeys (setUid l sid uid) = infoKeys l := by
  induction l with
  | nil => rfl
  | cons p t ih =>
    obtain ⟨k, i⟩ := p
    by_cases h : (k == sid) = true
    · simp [setUid, infoKeys, h]
    · have hb : (k == sid) = false := by simpa using h
      simpa [setUid, infoKeys, hb] using ih

theorem lookupInfo_setUid (l : List (Nat × SessInfo)) (sid uid : Nat) :
    lookupInfo (setUid l sid uid) sid =
      (lookupInfo l sid).map (fun i => { i with user_id := some uid }) := by
  induction l with
  | nil => rfl
  | cons p t ih =>
    obtain ⟨k, i⟩ := p
    by_cases h : (k == sid) = true
    · simp [setUid, lookupInfo, List.find?, h]
    · have hb : (k == sid) = false := by simpa using h
      simpa [setUid, lookupInfo, List.find?, hb] using ih

theorem lookupInfo_isSome (l : List (Nat × SessInfo)) (sid : Nat)
    (h : sid ∈ infoKeys l) : ∃ i, lookupInfo l sid = some i := by
  induction l with
  | nil => simp [infoKeys] at h
  | cons p t ih =>
    obtain ⟨k, i⟩ := p
    by_cases hk : (k == sid) = true
    · exact ⟨i, by simp [lookupInfo, List.find?, hk]⟩
    · have hb : (k == sid) = false := by simpa using hk
      have hne : k ≠ sid := by simpa using hb
      have hmem : sid ∈ infoKeys t := by
        have hh : sid = k ∨ ∃ x, (sid, x) ∈ t := by simpa [infoKeys] using h
        rcases hh with h1 | h1
        · exact absurd h1.symm hne
        · obtain ⟨x, hx⟩ := h1
          show sid ∈ List.map Prod.fst t
          exact List.mem_map.mpr ⟨(sid, x), hx, rfl⟩
      obtain ⟨j, hj⟩ := ih hmem
      exact ⟨j, by simpa [lookupInfo, List.find?, hb] using hj⟩

/-- C7: two successive `register_user` requests with the same (non-empty)
username, issued by live sessions over a store holding at most one user
record for that name, bind the same user identifier to the requesting
session both times, and afterwards exactly one user record for that name
exists (the second call creates no duplicate). -/
theorem claim_C7 (st : SrvState) (sid1 sid2 : Nat) (U : String) (hU : U ≠ "")
    (h1 : sid1 ∈ infoKeys st.client_info)
    (h2 : sid2 ∈ infoKeys st.client_info)
    (hcount : (st.store.users.filter (fun x => x.username == U)).length ≤ 1) :
    ∃ uid i1 i2,
      lookupInfo ((registerUser st sid1 { username := some U }).1).client_info
          sid1 = some i1 ∧
      i1.user_id = some uid ∧
      lookupInfo ((registerUser
          (registerUser st sid1 { username := some U }).1 sid2
          { username := some U }).1).client_info sid2 = some i2 ∧
      i2.user_id = some uid ∧
      (((registerUser (registerUser st sid1 { username := some U }).1 sid2
          { username := some U }).1).store.users.filter
        (fun x => x.username == U)).length = 1 := by
  have hUb : (U == "") = false := by simpa using hU
  have e1 : registerUser st sid1 { username := some U } =
      ({ st with
          store := (getOrCreateUser st.store U).1
          client_info := setUid st.client_info sid1 (getOrCreateUser st.store U).2 },
       [(sid1, OutMsg.registerUserResp "success")]) := by
    simp [registerUser, hUb, h1]
  have h2b : sid2 ∈ infoKeys ((registerUser st sid1
      { username := some U }).1).client_info := by
    rw [e1]
    simpa [infoKeys_setUid] using h2
  have e2 : registerUser (registerUser st sid1 { username := some U }).1 sid2
      { username := some U } =
      ({ (registerUser st sid1 { username := some U }).1 with
          store := (getOrCreateUser st.store U).1
          client_info := setUid ((registerUser st sid1
            { username := some U }).1).client_info sid2
              (getOrCreateUser st.store U).2 },
       [(sid2, OutMsg.registerUserResp "success")]) := by
    simp [registerUser, hUb, h1, infoKeys_setUid, h2, getOrCreateUser_idem]
  obtain ⟨i0, hi0⟩ := lookupInfo_isSome st.client_info sid1 h1
  obtain ⟨j0, hj0⟩ := lookupInfo_isSome ((registerUser st sid1
    { username := some U }).1).client_info sid2 h2b
  refine ⟨(getOrCreateUser st.store U).2,
    { i0 with user_id := some (getOrCreateUser st.store U).2 },
    { j0 with user_id := some (getOrCreateUser st.store U).2 }, ?_, rfl, ?_, rfl, ?_⟩
  · rw [e1]
    simp only
    rw [lookupInfo_setUid, hi0]
    rfl
  · rw [e2]
    simp only
    rw [lookupInfo_setUid, hj0]
    rfl
  · rw [e2]
    exact getOrCreateUser_uCount st.store U hcount

/-- Witness for `claim_C7`: registering `"bob"` twice from sessions 0 and 1
of the demo state. -/
theorem claim_C7_wit :
    ∃ uid i1 i2,
      lookupInfo ((registerUser demoState 0 { username := some "bob" }).1).client_info
          0 = some i1 ∧
      i1.user_id = some uid ∧
      lookupInfo ((registerUser
          (registerUser demoState 0 { username := some "bob" }).1 1
          { username := some "bob" }).1).client_info 1 = some i2 ∧
      i2.user_id = some uid ∧
      (((registerUser (registerUser demoState 0 { username := some "bob" }).1 1
          { username := some "bob" }).1).store.users.filter
        (fun x => x.username == "bob")).length = 1 :=
  claim_C7 demoState 0 1 "bob" (by decide) (by decide) (by decide) (by decide)

theorem mem_chUpdateOuts_of (s : Store) (wn : String)
    (infos : List (Nat × SessInfo)) (c : Nat) (i : SessInfo)
    (h : (c, i) ∈ infos) (hw : i.workspace = some wn) :
    (c, OutMsg.channelUpdate wn (chanNamesFor s wn)) ∈ chUpdateOuts s wn infos := by
  simp only [chUpdateOuts, List.mem_map, List.mem_filter]
  exact ⟨(c, i), ⟨h, by simp [hw]⟩, rfl⟩

theorem findWorkspace_isSome (s : Store) (N : String)
    (hex : ∃ w ∈ s.workspaces, w.name = N) :
    ∃ x, findWorkspace s N = some x := by
  obtain ⟨w, hw, hname⟩ := hex
  cases hf : findWorkspace s N with
  | some x => exact ⟨x, rfl⟩
  | none =>
    exfalso
    have := List.find?_eq_none.mp hf w hw
    simp [hname] at this

/-- C5 counterexample: against a store seeded with a workspace literally
named `" a"` (leading space), `create_workspace` with `workspace_name`
`" a"` strips the name before the duplicate lookup, misses the existing
document, and therefore answers success and inserts a second workspace —
refuting the claim that an existing name always yields an error-status
response and an unchanged workspace collection. -/
theorem claim_C5_cex :
    (∃ w ∈ padState.store.workspaces, w.name = " a") ∧
      (0, OutMsg.createWorkspaceResp "success") ∈
        (createWorkspace padState 0 { workspace_name := some " a" }).2 ∧
      (createWorkspace padState 0
        { workspace_name := some " a" }).1.store.workspaces.length = 2 := by
  decide

/-- C5 amended: when the requested name is its own stripped form (no leading
or trailing whitespace, which holds for every name this server itself ever
stores) and a workspace of that name exists, `create_workspace` sends an
error-status response to the caller and leaves the entire server state —
in particular the workspace collection and every workspace's channels —
unchanged. -/
theorem claim_C5 (st : SrvState) (sid : Nat) (req : Req) (N : String)
    (hreq : req.workspace_name = some N)
    (hN : stripWs N = N)
    (hex : ∃ w ∈ st.store.workspaces, w.name = N) :
    (sid, OutMsg.createWorkspaceResp "error") ∈ (createWorkspace st sid req).2 ∧
      (createWorkspace st sid req).1 = st := by
  unfold createWorkspace
  rw [hreq]
  simp only [Option.getD_some, hN]
  by_cases h0 : (N == "") = true
  · simp [h0]
  · have hb : (N == "") = false := by simpa using h0
    obtain ⟨x, hx⟩ := findWorkspace_isSome st.store N hex
    simp [hb, hx]

/-- Witness for `claim_C5`: creating `"w"` again over the demo store. -/
theorem claim_C5_wit :
    (0, OutMsg.createWorkspaceResp "error") ∈
        (createWorkspace demoState 0 { workspace_name := some "w" }).2 ∧
      (createWorkspace demoState 0 { workspace_name := some "w" }).1 = demoState :=
  claim_C5 demoState 0 { workspace_name := some "w" } "w" rfl (by decide)
    (by decide)

/-- C10: the structural-update broadcast fires on the Conflict error path as
well as on success: `create_workspace` with an already-existing (stripped)
name answers an error yet still sends `workspace_update` to every client,
and `create_channel` with a channel name already present in the workspace
answers an error yet still sends the scoped `channel_update` to every
session subscribed to that workspace. -/
theorem claim_C10 :
    (∀ (st : SrvState) (sid : Nat) (req : Req) (N : String),
       req.workspace_name = some N → stripWs N ≠ "" →
       findWorkspace st.store (stripWs N) ≠ none →
       (sid, OutMsg.createWorkspaceResp "error") ∈ (createWorkspace st sid req).2 ∧
         ∀ c, c ∈ st.clients →
           (c, OutMsg.workspaceUpdate (wsListing st.store)) ∈
             (createWorkspace st sid req).2) ∧
    (∀ (st : SrvState) (sid : Nat) (req : Req) (W C : String),
       req.workspace = some W → req.channel_name = some C → stripWs C ≠ "" →
       ∀ w, findWorkspace st.store (stripWs W) = some w →
       findChannel st.store (stripWs C) w.id ≠ none →
       (sid, OutMsg.createChannelResp "error") ∈ (createChannel st sid req).2 ∧
         ∀ c i, (c, i) ∈ st.client_info → i.workspace = some (stripWs W) →
           (c, OutMsg.channelUpdate (stripWs W)
             (chanNamesFor st.store (stripWs W))) ∈ (createChannel st sid req).2) := by
  constructor
  · intro st sid req N hreq hne hfound
    obtain ⟨x, hx⟩ := Option.ne_none_iff_exists'.mp hfound
    have hb : (stripWs N == "") = false := by simpa using hne
    unfold createWorkspace
    rw [hreq]
    simp only [Option.getD_some, hb, Bool.false_eq_true, if_false, hx]
    constructor
    · exact List.mem_cons_self _ _
    · intro c hc
      exact List.mem_cons_of_mem _
        (List.mem_map.mpr ⟨c, hc, rfl⟩)
  · intro st sid req W C hw hc hne w hfw hfc
    obtain ⟨x, hx⟩ := Option.ne_none_iff_exists'.mp hfc
    have hb : (stripWs C == "") = false := by simpa using hne
    unfold createChannel
    rw [hw, hc]
    simp only [Option.getD_some, hb, Bool.false_eq_true, if_false, hfw, hx]
    constructor
    · exact List.mem_cons_self _ _
    · intro c i hmem hws
      exact List.mem_cons_of_mem _
        (mem_chUpdateOuts_of st.store (stripWs W) st.client_info c i hmem hws)

/-- Witness for `claim_C10`: both conflict paths on the demo state. -/
theorem claim_C10_wit :
    ((0, OutMsg.createWorkspaceResp "error") ∈
        (createWorkspace demoState 0 { workspace_name := some "w" }).2 ∧
      ∀ c, c ∈ demoState.clients →
        (c, OutMsg.workspaceUpdate (wsListing demoState.store)) ∈
          (createWorkspace demoState 0 { workspace_name := some "w" }).2) ∧
    ((1, OutMsg.createChannelResp "error") ∈
        (createChannel demoState 1
          { workspace := some "w", channel_name := some "c" }).2 ∧
      ∀ c i, (c, i) ∈ demoState.client_info → i.workspace = some (stripWs "w") →
        (c, OutMsg.channelUpdate (stripWs "w")
          (chanNamesFor demoState.store (stripWs "w"))) ∈
          (createChannel demoState 1
            { workspace := some "w", channel_name := some "c" }).2) :=
  ⟨claim_C10.1 demoState 0 { workspace_name := some "w" } "w" rfl (by decide)
      (by decide),
   claim_C10.2 demoState 1 { workspace := some "w", channel_name := some "c" }
      "w" "c" rfl rfl (by decide) { id := 0, name := "w" } (by decide)
      (by decide)⟩

theorem storeMessage_resolved (s : Store) (req : Req) (w : Workspace)
    (ch : Channel)
    (hw : findWorkspace s ((req.workspace).getD "default") = some w)
    (hc : findChannel s (stripHash ((req.channel).getD "default")) w.id = some ch) :
    storeMessage s req =
      { (getOrCreateUser s ((req.sender).getD "Unknown")).1 with
        messages := (getOrCreateUser s ((req.sender).getD "Unknown")).1.messages ++
          [{ id := (getOrCreateUser s ((req.sender).getD "Unknown")).1.ctr,
             workspace_id := w.id, channel_id := ch.id,
             user_id := (getOrCreateUser s ((req.sender).getD "Unknown")).2,
             sender := (req.sender).getD "Unknown",
             content := (req.message).getD "",
             mdate := (req.date).getD nowDate,
             mtime := (req.time).getD nowTime,
             created_at := (getOrCreateUser s ((req.sender).getD "Unknown")).1.ctr }]
        ctr := (getOrCreateUser s ((req.sender).getD "Unknown")).1.ctr + 1 } := by
  simp only [storeMessage, hw, hc, Option.orElse]

/-- C3: round-trip of `send_message` and `get_channel_data`.  When the
request's workspace name resolves and its (hash-stripped) channel name
resolves within it, storing the message and then requesting the channel data
with the same request fields yields exactly one `channel_data` envelope to
the caller whose rows are the channel's messages sorted by the
server-assigned `created_at` ascending; the stored content appears verbatim
among them and the row list is sorted by storage timestamp. -/
theorem claim_C3 (s : Store) (cl : List Nat) (infos : List (Nat × SessInfo))
    (sid : Nat) (req : Req) (w : Workspace) (ch : Channel)
    (hw : findWorkspace s ((req.workspace).getD "default") = some w)
    (hc : findChannel s (stripHash ((req.channel).getD "default")) w.id = some ch) :
    ∃ ms : List Message,
      (sendChannelData
          { store := storeMessage s req, clients := cl, client_info := infos }
          sid req).2 =
        [(sid, OutMsg.channelData ((req.workspace).getD "default")
          (stripHash ((req.channel).getD "default"))
          (ms.map (fun m => { vdate := m.mdate, vtime := m.mtime,
                              vsender := m.sender, vmsg := m.content })))] ∧
      (∃ m ∈ ms, m.content = (req.message).getD "") ∧
      ms.Pairwise (fun a b => a.created_at ≤ b.created_at) := by
  have e := storeMessage_resolved s req w ch hw hc
  have hwk : (storeMessage s req).workspaces = s.workspaces := by
    rw [e]
    simp [getOrCreateUser_workspaces]
  have hck : (storeMessage s req).channels = s.channels := by
    rw [e]
    simp [getOrCreateUser_channels]
  have hw2 : findWorkspace (storeMessage s req)
      ((req.workspace).getD "default") = some w := by
    unfold findWorkspace at hw ⊢
    rw [hwk]
    exact hw
  have hc2 : findChannel (storeMessage s req)
      (stripHash ((req.channel).getD "default")) w.id = some ch := by
    unfold findChannel at hc ⊢
    rw [hck]
    exact hc
  refine ⟨sortK (fun a b => decide (a.created_at ≤ b.created_at))
      ((storeMessage s req).messages.filter
        (fun m => m.workspace_id == w.id && m.channel_id == ch.id)), ?_, ?_, ?_⟩
  · simp only [sendChannelData, hw2, hc2]
  · refine ⟨{ id := (getOrCreateUser s ((req.sender).getD "Unknown")).1.ctr
              workspace_id := w.id
              channel_id := ch.id
              user_id := (getOrCreateUser s ((req.sender).getD "Unknown")).2
              sender := (req.sender).getD "Unknown"
              content := (req.message).getD ""
              mdate := (req.date).getD nowDate
              mtime := (req.time).getD nowTime
              created_at := (getOrCreateUser s ((req.sender).getD "Unknown")).1.ctr },
      ?_, rfl⟩
    rw [mem_sortK, List.mem_filter, e]
    constructor
    · simp
    · simp
  · have hP := pairwise_sortK (fun a b : Message =>
        decide (a.created_at ≤ b.created_at))
      (fun x y => by
        rcases Nat.le_total x.created_at y.created_at with h | h
        · left; simpa using h
        · right; simpa using h)
      (fun x y z hxy hyz => by
        simp only [decide_eq_true_eq] at hxy hyz ⊢
        omega)
      ((storeMessage s req).messages.filter
        (fun m => m.workspace_id == w.id && m.channel_id == ch.id))
    exact hP.imp (fun h => by simpa using h)

/-- Witness for `claim_C3`: storing `"hello"` in `"w"`/`"c"` of the demo
store and reading it back. -/
theorem claim_C3_wit :
    ∃ ms : List Message,
      (sendChannelData
          { store := storeMessage demoStore rq3w, clients := [0], client_info := [] }
          0 rq3w).2 =
        [(0, OutMsg.channelData ((rq3w.workspace).getD "default")
          (stripHash ((rq3w.channel).getD "default"))
          (ms.map (fun m => { vdate := m.mdate, vtime := m.mtime,
                              vsender := m.sender, vmsg := m.content })))] ∧
      (∃ m ∈ ms, m.content = (rq3w.message).getD "") ∧
      ms.Pairwise (fun a b => a.created_at ≤ b.created_at) :=
  claim_C3 demoStore [0] [] 0 rq3w
    { id := 0, name := "w" } { id := 1, name := "c", workspace_id := 0, descr := "" }
    (by decide) (by decide)

theorem length_le_one_eq {α : Type} (l : List α) (a : α) (h1 : l.length ≤ 1)
    (h2 : a ∈ l) : l = [a] := by
  match l, h2 with
  | [x], h2 =>
    have : a = x := by simpa using h2
    rw [this]
  | x :: y :: t, _ => simp at h1

theorem removeFirstChannel_eq_filter (l : List Channel) (i : Nat)
    (h : (l.map (fun c => c.id)).Nodup) :
    removeFirstChannel l i = l.filter (fun c => !(c.id == i)) := by
  induction l with
  | nil => rfl
  | cons a t ih =>
    simp only [List.map_cons, List.nodup_cons] at h
    by_cases ha : (a.id == i) = true
    · have hai : a.id = i := by simpa using ha
      have ht : t.filter (fun c => !(c.id == i)) = t := by
        rw [List.filter_eq_self]
        intro c hc
        have hne : c.id ≠ i := by
          intro hci
          apply h.1
          exact List.mem_map.mpr ⟨c, hc, by rw [hci]; exact hai.symm⟩
        simpa using hne
      simp [removeFirstChannel, ha, List.filter_cons, ht]
    · have hb : (a.id == i) = false := by simpa using ha
      simp [removeFirstChannel, hb, List.filter_cons, ih h.2]

theorem removeFirstChannel_append_fresh (l : List Channel) (a : Channel)
    (h : ∀ c ∈ l, c.id ≠ a.id) : removeFirstChannel (l ++ [a]) a.id = l := by
  induction l with
  | nil => simp [removeFirstChannel]
  | cons b t ih =>
    have hb : (b.id == a.id) = false := by
      simpa using h b (List.mem_cons_self b t)
    simp only [List.cons_append, removeFirstChannel, hb, Bool.false_eq_true,
      if_false, List.cons.injEq, true_and]
    exact ih (fun c hc => h c (List.mem_cons_of_mem b hc))

theorem sendChannelList_names (st : SrvState) (sid c : Nat) (req : Req)
    (wn : String) (ns : List String)
    (h : (c, OutMsg.channelList wn ns) ∈ (sendChannelList st sid req).2) :
    ns = chanNamesFor st.store ((req.workspace).getD "default") := by
  unfold sendChannelList at h
  by_cases hk : sid ∈ infoKeys st.client_info
  · simp [hk] at h
    exact h.2.2
  · simp [hk] at h
    exact h.2.2

theorem sendChannelData_noWs (st : SrvState) (sid : Nat) (req : Req)
    (h : findWorkspace st.store ((req.workspace).getD "default") = none) :
    (sendChannelData st sid req).2 = [(sid, OutMsg.channelDataErr)] := by
  simp [sendChannelData, h]

theorem sendChannelData_noCh (st : SrvState) (sid : Nat) (req : Req)
    (w : Workspace)
    (hw : findWorkspace st.store ((req.workspace).getD "default") = some w)
    (hc : findChannel st.store (stripHash ((req.channel).getD "default"))
      w.id = none) :
    (sendChannelData st sid req).2 = [(sid, OutMsg.channelDataErr)] := by
  simp [sendChannelData, hw, hc]

/-- C4 counterexample: `create_channel` does not strip `#` from the new
channel name, but `delete_channel` does.  Creating channel `"#x"` in
workspace `"w"` and then deleting with the same request fields makes the
delete look up `"x"`, fail with a not-found error, and leave `"#x"` in every
subsequent `get_channel_list` result — refuting the cascade claim as
stated. -/
theorem claim_C4_cex :
    (0, OutMsg.deleteChannelResp "error") ∈
        (deleteChannel hashState1 0
          { workspace := some "w", channel := some "#x" }).2 ∧
      (sendChannelList hashState2 0 { workspace := some "w" }).2 =
        [(0, OutMsg.channelList "w" ["#x", "c"])] := by
  decide

/-- C4 amended: for channel names without leading/trailing `#` or whitespace
(so that `create_channel` and `delete_channel` resolve the same name — every
other name hits the strip asymmetry of the counterexample), over a
well-formed store (distinct channel ids below the id counter, at most one
channel of that name per workspace), a `create_channel` followed by a
`delete_channel` for the same workspace/channel leaves the channel absent
from every subsequent `get_channel_list` result and makes every subsequent
`get_channel_data` for it answer the not-found error (so none of its
messages are returned). -/
theorem claim_C4 (st : SrvState) (sid1 sid2 sid3 sid4 : Nat) (W C : String)
    (hWt : stripWs W = W) (hCt : stripWs C = C) (hCh : stripHash C = C)
    (hC0 : C ≠ "") (hW0 : W ≠ "")
    (hids : (st.store.channels.map (fun c => c.id)).Nodup)
    (hfresh : ∀ ch ∈ st.store.channels, ch.id < st.store.ctr)
    (huniq : ∀ w, findWorkspace st.store W = some w →
      (st.store.channels.filter
        (fun c => c.name == C && c.workspace_id == w.id)).length ≤ 1) :
    (∀ ns, (sid3, OutMsg.channelList W ns) ∈
        (sendChannelList
          (deleteChannel
            (createChannel st sid1
              { workspace := some W, channel_name := some C }).1
            sid2 { workspace := some W, channel := some C }).1
          sid3 { workspace := some W }).2 → C ∉ ns) ∧
    (∀ m, (sid4, m) ∈
        (sendChannelData
          (deleteChannel
            (createChannel st sid1
              { workspace := some W, channel_name := some C }).1
            sid2 { workspace := some W, channel := some C }).1
          sid4 { workspace := some W, channel := some C }).2 →
      m = OutMsg.channelDataErr) := by
  have hCb : (C == "") = false := by simpa using hC0
  have hWb : (W == "") = false := by simpa using hW0
  have key : ∃ s2 : SrvState,
      (deleteChannel
        (createChannel st sid1
          { workspace := some W, channel_name := some C }).1
        sid2 { workspace := some W, channel := some C }).1 = s2 ∧
      (findWorkspace s2.store W = none ∨
        ∃ w, findWorkspace s2.store W = some w ∧
          findChannel s2.store C w.id = none) := by
    cases hfw : findWorkspace st.store W with
    | none =>
      have e1 : (createChannel st sid1
          { workspace := some W, channel_name := some C }).1 = st := by
        simp [createChannel, hWt, hCt, hCb, hfw]
      have e2 : (deleteChannel st sid2
          { workspace := some W, channel := some C }).1 = st := by
        simp [deleteChannel, hWt, hCt, hCh, hCb, hWb, hfw]
      exact ⟨st, by rw [e1, e2], Or.inl hfw⟩
    | some w =>
      have huw := huniq w hfw
      cases hfc : findChannel st.store C w.id with
      | some ch0 =>
        have e1 : (createChannel st sid1
            { workspace := some W, channel_name := some C }).1 = st := by
          simp [createChannel, hWt, hCt, hCb, hfw, hfc]
        have e2 : (deleteChannel st sid2
            { workspace := some W, channel := some C }).1 =
            { st with store :=
              { st.store with
                messages := st.store.messages.filter
                  (fun m => !(m.channel_id == ch0.id))
                channels := removeFirstChannel st.store.channels ch0.id } } := by
          simp [deleteChannel, hWt, hCt, hCh, hCb, hWb, hfw, hfc]
        refine ⟨_, by rw [e1, e2], Or.inr ⟨w, ?_, ?_⟩⟩
        · show findWorkspace _ W = some w
          unfold findWorkspace at hfw ⊢
          exact hfw
        · show findChannel _ C w.id = none
          unfold findChannel
          apply List.find?_eq_none.mpr
          intro c hc hpred
          have hc2 : c ∈ removeFirstChannel st.store.channels ch0.id := hc
          rw [removeFirstChannel_eq_filter _ _ hids] at hc2
          obtain ⟨hcmem, hcid⟩ := List.mem_filter.mp hc2
          have hf2 : List.find?
              (fun c => c.name == C && c.workspace_id == w.id)
              st.store.channels = some ch0 := hfc
          have hp2 := List.find?_some hf2
          have hch0mem : ch0 ∈ st.store.channels.filter
              (fun c => c.name == C && c.workspace_id == w.id) :=
            List.mem_filter.mpr ⟨List.mem_of_find?_eq_some hf2, hp2⟩
          have heq := length_le_one_eq _ _ huw hch0mem
          have hcin : c ∈ st.store.channels.filter
              (fun c => c.name == C && c.workspace_id == w.id) :=
            List.mem_filter.mpr ⟨hcmem, hpred⟩
          rw [heq] at hcin
          have hcc : c = ch0 := by simpa using hcin
          rw [hcc] at hcid
          simp at hcid
      | none =>
        have e1 : (createChannel st sid1
            { workspace := some W, channel_name := some C }).1 =
            { st with store :=
              { st.store with
                channels := st.store.channels ++
                  [{ id := st.store.ctr, name := C, workspace_id := w.id,
                     descr := "" }]
                ctr := st.store.ctr + 1 } } := by
          simp [createChannel, hWt, hCt, hCb, hfw, hfc]
        have hfw1 : findWorkspace
            ({ st with store :=
              { st.store with
                channels := st.store.channels ++
                  [{ id := st.store.ctr, name := C, workspace_id := w.id,
                     descr := "" }]
                ctr := st.store.ctr + 1 } } : SrvState).store W = some w := by
          unfold findWorkspace at hfw ⊢
          exact hfw
        have hfc1 : findChannel
            ({ st with store :=
              { st.store with
                channels := st.store.channels ++
                  [{ id := st.store.ctr, name := C, workspace_id := w.id,
                     descr := "" }]
                ctr := st.store.ctr + 1 } } : SrvState).store C w.id =
            some { id := st.store.ctr, name := C, workspace_id := w.id,
                   descr := "" } := by
          unfold findChannel at hfc ⊢
          show List.find? _ (st.store.channels ++ [_]) = _
          rw [find?_append_none _ _ _ hfc]
          simp [List.find?]
        have e2 : (deleteChannel
            { st with store :=
              { st.store with
                channels := st.store.channels ++
                  [{ id := st.store.ctr, name := C, workspace_id := w.id,
                     descr := "" }]
                ctr := st.store.ctr + 1 } }
            sid2 { workspace := some W, channel := some C }).1 =
            { st with store :=
              { st.store with
                messages := st.store.messages.filter
                  (fun m => !(m.channel_id == st.store.ctr))
                channels := removeFirstChannel
                  (st.store.channels ++
                    [{ id := st.store.ctr, name := C, workspace_id := w.id,
                       descr := "" }]) st.store.ctr
                ctr := st.store.ctr + 1 } } := by
          simp [deleteChannel, hWt, hCt, hCh, hCb, hWb, hfw1, hfc1]
        have hrm : removeFirstChannel
            (st.store.channels ++
              [{ id := st.store.ctr, name := C, workspace_id := w.id,
                 descr := "" }]) st.store.ctr = st.store.channels := by
          have := removeFirstChannel_append_fresh st.store.channels
            { id := st.store.ctr, name := C, workspace_id := w.id, descr := "" }
            (fun c hc => by
              have := hfresh c hc
              simpa using Nat.ne_of_lt this)
          simpa using this
        refine ⟨_, by rw [e1, e2], Or.inr ⟨w, ?_, ?_⟩⟩
        · show findWorkspace _ W = some w
          unfold findWorkspace at hfw ⊢
          exact hfw
        · show findChannel _ C w.id = none
          unfold findChannel at hfc ⊢
          show List.find? _ (removeFirstChannel
            (st.store.channels ++ [_]) st.store.ctr) = none
          rw [hrm]
          exact hfc
  obtain ⟨s2, hs2, hkey⟩ := key
  rw [hs2]
  constructor
  · intro ns hns
    have hns2 := sendChannelList_names s2 sid3 sid3 { workspace := some W }
      W ns hns
    rw [hns2]
    rcases hkey with hk | ⟨w, hw, hc⟩
    · simp [chanNamesFor, hk]
    · show C ∉ chanNamesFor s2.store W
      simp only [chanNamesFor, hw]
      intro hmem
      obtain ⟨c0, hc0, hname⟩ := List.mem_map.mp hmem
      have hc0b := (mem_sortK _ _ _).mp hc0
      obtain ⟨hc0mem, hc0ws⟩ := List.mem_filter.mp hc0b
      have := List.find?_eq_none.mp hc c0 hc0mem
      simp [hname, hc0ws] at this
  · intro m hm
    rcases hkey with hk | ⟨w, hw, hc⟩
    · rw [sendChannelData_noWs s2 sid4
        { workspace := some W, channel := some C } (by simpa using hk)] at hm
      simpa using hm
    · have hc2 : findChannel s2.store
          (stripHash ((({ workspace := some W, channel := some C } :
            Req).channel).getD "default")) w.id = none := by
        simpa [hCh] using hc
      rw [sendChannelData_noCh s2 sid4
        { workspace := some W, channel := some C } w (by simpa using hw) hc2] at hm
      simpa using hm

/-- Witness for `claim_C4`: create then delete channel `"d"` in workspace
`"w"` of the demo store, then list and fetch. -/
theorem claim_C4_wit :
    (∀ ns, (2, OutMsg.channelList "w" ns) ∈
        (sendChannelList
          (deleteChannel
            (createChannel demoState 0
              { workspace := some "w", channel_name := some "d" }).1
            1 { workspace := some "w", channel := some "d" }).1
          2 { workspace := some "w" }).2 → "d" ∉ ns) ∧
    (∀ m, (2, m) ∈
        (sendChannelData
          (deleteChannel
            (createChannel demoState 0
              { workspace := some "w", channel_name := some "d" }).1
            1 { workspace := some "w", channel := some "d" }).1
          2 { workspace := some "w", channel := some "d" }).2 →
      m = OutMsg.channelDataErr) :=
  claim_C4 demoState 0 1 2 2 "w" "d" (by decide) (by decide) (by decide)
    (by decide) (by decide) (by decide) (by decide) (by decide)

theorem lexPat_lit (p : List Char) (h1 : '.' ∉ p) (h2 : '*' ∉ p) :
    lexPat p = litToks p := by
  induction p with
  | nil => rfl
  | cons c rest ih =>
    have hc : (c == '.') = false := by
      have : c ≠ '.' := fun hcc => h1 (hcc ▸ List.mem_cons_self c rest)
      simpa using this
    have h1r : '.' ∉ rest := fun hx => h1 (List.mem_cons_of_mem c hx)
    have h2r : '*' ∉ rest := fun hx => h2 (List.mem_cons_of_mem c hx)
    cases rest with
    | nil => simp [lexPat, litToks, hc]
    | cons d rest2 =>
      have hd : d ≠ '*' := by
        intro hdd
        exact h2 (hdd ▸ List.mem_cons_of_mem c (List.mem_cons_self d rest2))
      rw [lexPat.eq_def]
      split
      · rename_i hr
        simp at hr
      · rename_i hr
        simp only [List.cons.injEq] at hr
        exact absurd hr.2.1 hd
      · rename_i hno heq
        simp only [List.cons.injEq] at heq
        obtain ⟨rfl, rfl⟩ := heq
        simp [litToks, hc, ih h1r h2r]

theorem rMatch_lit (p : List Char) : ∀ s : List Char,
    rMatch (litToks p) s = isPref (lowList p) s := by
  induction p with
  | nil => intro s; rfl
  | cons c p2 ih =>
    intro s
    simp only [litToks, lowList, List.map_cons] at ih ⊢
    cases s with
    | nil => simp [rMatch, isPref]
    | cons x s2 => simp [rMatch, isPref, charOK, ih s2]

theorem rSearch_lit (p : List Char) : ∀ s : List Char,
    rSearch (litToks p) s = hasSub (lowList p) s := by
  intro s
  induction s with
  | nil => simp [rSearch, hasSub, rMatch_lit]
  | cons x s2 ih => simp [rSearch, hasSub, rMatch_lit, ih]

theorem regexFind_substring (q s : String) (h1 : '.' ∉ q.toList)
    (h2 : '*' ∉ q.toList) : regexFind q s = icontains q s := by
  unfold regexFind icontains
  rw [lexPat_lit q.toList h1 h2, rSearch_lit]

theorem searchMatch_eq_spec (s : Store) (req : Req) (q : String)
    (hq1 : '.' ∉ q.toList) (hq2 : '*' ∉ q.toList)
    (hs : ∀ sp, searchSender req = some sp →
      ('.' ∉ sp.toList ∧ '*' ∉ sp.toList)) (m : Message) :
    searchMatch s req q m = specSearchMatch s req q m := by
  cases hsp : searchSender req with
  | none =>
    simp [searchMatch, specSearchMatch, hsp,
      regexFind_substring q m.content hq1 hq2]
  | some sp =>
    obtain ⟨hs1, hs2⟩ := hs sp hsp
    simp [searchMatch, specSearchMatch, hsp,
      regexFind_substring q m.content hq1 hq2,
      regexFind_substring sp m.sender hs1 hs2]

/-- C6 counterexample: the code passes the raw query to the store's `$regex`
operator instead of escaping it, so the query is interpreted as a regular
expression: query `"h."` returns the stored message `"hi"` (count 1) even
though `"h."` is not a case-insensitive substring of `"hi"` — refuting the
claim that search returns the messages matching the query as a substring. -/
theorem claim_C6_cex :
    (searchMessages { store := hiStore, clients := [0], client_info := [] } 0
        { query := some "h." }).2 =
      [(0, OutMsg.searchResp "success" 1
        [{ sdate := "", stime := "", ssender := "u", smsg := "hi",
           sworkspace := "w", schannel := "c" }])] ∧
      icontains "h." "hi" = false := by
  decide

/-- C6 amended: for every non-empty (stripped) query containing none of the
PCRE metacharacters `. ^ $ * + ? ( ) [ ] \x7b \x7d | \\` — on such patterns
`$regex` matches purely literally and degenerates to case-insensitive
substring search — and a likewise metacharacter-free sender filter if one is
present, the search response is a single success envelope whose results are
exactly the messages passing the claim's substring/filter/date predicate,
ordered newest-first by storage timestamp, capped at 100, and whose count
field equals the number of returned results. -/
theorem claim_C6 (st : SrvState) (sid : Nat) (req : Req)
    (hq : stripWs ((req.query).getD "") ≠ "")
    (hqm : metaFree (stripWs ((req.query).getD "")))
    (hs : ∀ sp, searchSender req = some sp → metaFree sp) :
    ∃ rs ms,
      (searchMessages st sid req).2 =
        [(sid, OutMsg.searchResp "success" rs.length rs)] ∧
      ms = (sortK (fun a b => decide (b.created_at ≤ a.created_at))
        (st.store.messages.filter
          (specSearchMatch st.store req (stripWs ((req.query).getD ""))))).take 100 ∧
      rs = ms.map (fun m =>
        { sdate := m.mdate, stime := m.mtime, ssender := m.sender,
          smsg := m.content, sworkspace := wsNameById st.store m.workspace_id,
          schannel := chNameById st.store m.channel_id : SearchView }) ∧
      ms.Pairwise (fun a b => b.created_at ≤ a.created_at) ∧
      rs.length ≤ 100 := by
  have hqb : (stripWs ((req.query).getD "") == "") = false := by simpa using hq
  have hq1 : '.' ∉ (stripWs ((req.query).getD "")).toList :=
    fun h => hqm '.' h (by decide)
  have hq2 : '*' ∉ (stripWs ((req.query).getD "")).toList :=
    fun h => hqm '*' h (by decide)
  have hs2 : ∀ sp, searchSender req = some sp →
      ('.' ∉ sp.toList ∧ '*' ∉ sp.toList) :=
    fun sp hsp => ⟨fun h => hs sp hsp '.' h (by decide),
                   fun h => hs sp hsp '*' h (by decide)⟩
  have hf : st.store.messages.filter
      (searchMatch st.store req (stripWs ((req.query).getD ""))) =
      st.store.messages.filter
        (specSearchMatch st.store req (stripWs ((req.query).getD ""))) :=
    List.filter_congr (fun m _ => searchMatch_eq_spec _ _ _ hq1 hq2 hs2 m)
  refine ⟨_, _, ?_, rfl, rfl, ?_, ?_⟩
  · simp only [searchMessages, hqb, Bool.false_eq_true, if_false, hf]
  · have hP := pairwise_sortK (fun a b : Message =>
        decide (b.created_at ≤ a.created_at))
      (fun x y => by
        rcases Nat.le_total y.created_at x.created_at with h | h
        · left; simpa using h
        · right; simpa using h)
      (fun x y z hxy hyz => by
        simp only [decide_eq_true_eq] at hxy hyz ⊢
        omega)
      (st.store.messages.filter
        (specSearchMatch st.store req (stripWs ((req.query).getD ""))))
    exact (hP.sublist (List.take_sublist _ _)).imp (fun h => by simpa using h)
  · simp [List.length_take]

/-- Witness for `claim_C6`: the specification's worked example — two stored
messages `"hi there"` and `"bye"`, query `"hi"`. -/
theorem claim_C6_wit :
    ∃ rs ms,
      (searchMessages hiState 0 rqHi).2 =
        [(0, OutMsg.searchResp "success" rs.length rs)] ∧
      ms = (sortK (fun a b => decide (b.created_at ≤ a.created_at))
        (hiState.store.messages.filter
          (specSearchMatch hiState.store rqHi
            (stripWs ((rqHi.query).getD ""))))).take 100 ∧
      rs = ms.map (fun m =>
        { sdate := m.mdate, stime := m.mtime, ssender := m.sender,
          smsg := m.content, sworkspace := wsNameById hiState.store m.workspace_id,
          schannel := chNameById hiState.store m.channel_id : SearchView }) ∧
      ms.Pairwise (fun a b => b.created_at ≤ a.created_at) ∧
      rs.length ≤ 100 :=
  claim_C6 hiState 0 rqHi (by decide) (by decide)
    (fun sp h => Option.noConfusion h)
